import Mathlib

/-!
Verification of the serverless document-analytics pipeline
(`serverless-doc-analytics/app.py`, `document_processor/app.py`,
`document_extractor/app.py`, `document_analyzer/app.py`,
`upload_notifier/app.py`, and the standalone `document_extractor/app.py`).

The Python handlers are shallowly embedded as pure Lean functions.
External library calls (S3 reads, PDF parsing, CSV parsing, byte
decoding, language detection, UUID generation, timestamps) are supplied
by an explicit environment `Env`; side effects (DynamoDB writes, SNS
publishes, asynchronous Lambda invocations, DynamoDB reads) are recorded
in an explicit `Effect` trace.  A handler's result is
`Except String Dict × List Effect`: `Except.error` models an uncaught
Python exception, the effect list models the external calls that were
actually issued before the handler returned or raised.
-/

deriving instance DecidableEq for Except

set_option maxRecDepth 4000

/-! ## Python standard-library helpers -/

/-- Model of Python `sep.join(parts)`. -/
def joinSep (sep : String) : List String → String
  | [] => ""
  | [x] => x
  | x :: y :: xs => x ++ sep ++ joinSep sep (y :: xs)

/-- A character matched by the regex class `\w`: alphanumeric or underscore
(restricted to the character test Lean provides; the claims only exercise
ASCII). -/
def isWordChar (c : Char) : Bool := c.isAlphanum || c == '_'

/-- Model of Python `str.lower()` on a character list. -/
def lowerChars (l : List Char) : List Char := l.map Char.toLower

/-- Accumulator-based scanner extracting the maximal runs of `isWordChar`
characters, which is the semantics of `re.findall(r'\b\w+\b', ...)`. -/
def tokenizeAux : List Char → List Char → List (List Char)
  | [], acc => if acc = [] then [] else [acc.reverse]
  | c :: cs, acc =>
    if isWordChar c then
      tokenizeAux cs (c :: acc)
    else if acc = [] then
      tokenizeAux cs []
    else
      acc.reverse :: tokenizeAux cs []

/-- Model of `re.findall(r'\b\w+\b', s.lower())`: the maximal word-character
runs of the lower-cased text. -/
def reFindallWordsLower (s : String) : List String :=
  (tokenizeAux (lowerChars s.data) []).map (fun t => String.mk t)

/-- One counting step of `collections.Counter`: bump the count of `w`,
keeping first-seen insertion order (Python dicts preserve insertion order). -/
def countAdd : List (String × Nat) → String → List (String × Nat)
  | [], w => [(w, 1)]
  | (x, n) :: rest, w =>
    if x = w then (x, n + 1) :: rest else (x, n) :: countAdd rest w

/-- Model of `collections.Counter(ws)` as an insertion-ordered association
list from token to count. -/
def counter (ws : List String) : List (String × Nat) := ws.foldl countAdd []

/-- Stable insertion (descending by count) used to model the stable
descending sort behind `Counter.most_common`: an element is placed before
the first element whose count is not larger, so earlier elements win ties. -/
def insertDesc (x : String × Nat) : List (String × Nat) → List (String × Nat)
  | [] => [x]
  | y :: ys => if y.2 ≤ x.2 then x :: y :: ys else y :: insertDesc x ys

/-- Stable sort by strictly descending count. -/
def sortDesc : List (String × Nat) → List (String × Nat)
  | [] => []
  | x :: xs => insertDesc x (sortDesc xs)

/-- Model of `Counter.most_common(n)`: documented as equivalent to
`sorted(items, key=count, reverse=True)[:n]` with a stable sort. -/
def most_common (n : Nat) (l : List (String × Nat)) : List (String × Nat) :=
  (sortDesc l).take n

/-- Model of Python `str.strip()`. -/
def pyStrip (s : String) : String :=
  String.mk (((s.data.dropWhile Char.isWhitespace).reverse.dropWhile
    Char.isWhitespace).reverse)

/-- Model of Python `str.split()` (split on whitespace runs, no empties). -/
def pySplitWs (s : String) : List String :=
  ((s.data.splitOnP Char.isWhitespace).filter (· ≠ [])).map
    (fun t => String.mk t)

/-- Model of Python slicing `s[:n]` (first `n` characters). -/
def pySlice (n : Nat) (s : String) : String := String.mk (s.data.take n)

/-- Model of `key.lower().endswith(sfx)`. -/
def pyLowerEndsWith (key : String) (sfx : String) : Bool :=
  List.isSuffixOf sfx.data (lowerChars key.data)

/-- Helper for `os.path.basename`: keep the characters after the last slash. -/
def basenameAux : List Char → List Char → List Char
  | [], acc => acc.reverse
  | c :: cs, acc => if c = '/' then basenameAux cs [] else basenameAux cs (c :: acc)

/-- Model of `os.path.basename`. -/
def pyBasename (s : String) : String := String.mk (basenameAux s.data [])

/-! ## Data model: attribute values, effect traces, environment, events -/

/-- An attribute value stored in a DynamoDB item or returned in a handler
dictionary (the handlers only ever use strings, integers and booleans). -/
inductive AttrVal where
  | s (v : String)
  | n (v : Nat)
  | b (v : Bool)
deriving DecidableEq

/-- A Python dictionary with string keys, as used for DynamoDB items,
Lambda payloads and handler return values. -/
abbrev Dict := List (String × AttrVal)

/-- Look a key up in a dictionary. -/
def dictGet (d : Dict) (k : String) : Option AttrVal :=
  (d.find? (fun p => p.1 == k)).map (fun p => p.2)

/-- One externally visible side effect issued by a handler, in issue order. -/
inductive Effect where
  | putItem (table : String) (item : Dict)
  | publish (topicArn subject message : String)
  | invokeAsync (functionName : String) (payload : Dict)
  | getItem (table : String) (key : Dict)
  | scan (table : String)
deriving DecidableEq

/-- The result of `s3.get_object(...)['Body'].read()` plus the metadata the
extractors consult.  `contentLength`/`lastModified` are optional because the
standalone extractor indexes them directly (raising when absent) while the
other extractor uses `.get` with a default. -/
structure S3Obj where
  body : List Nat
  contentLength : Option Nat
  lastModified : Option String
deriving DecidableEq

/-- The ambient external world: library calls and client calls the handlers
make.  `s3Get`, `pdfParse` and `detect` return `Except` because the
corresponding Python calls can raise; `putRes`, `publishRes` and `invokeRes`
give the outcome of the DynamoDB put, the SNS publish and the asynchronous
Lambda invoke.  `uuidGen i` is the `i`-th `uuid.uuid4()` drawn during one
invocation, `now` the timestamp string `datetime` produces. -/
structure Env where
  s3Get : String → String → Except String S3Obj
  pdfParse : List Nat → Except String (List (Option String))
  csvParse : String → List (List String)
  decodeIgnore : List Nat → String
  decodeSigIgnore : List Nat → String
  detect : String → Except Unit String
  uuidGen : Nat → String
  now : String
  putRes : Except String Unit
  publishRes : Except String Unit
  invokeRes : Except String Unit
  tableName : String
  topicArn : String
  analyzerFn : String

/-- The `s3` entry of an upload-event record; `none` fields model the
missing-key cases (`KeyError`). -/
structure S3Entity where
  bucketName : Option String
  objectKey : Option String
deriving DecidableEq

/-- One record of an S3 upload-event batch. -/
structure UploadRecord where
  s3 : Option S3Entity
  eventTime : Option String
deriving DecidableEq

/-- An upload event; `records = none` models an event without a `Records`
key, `some []` an empty batch (`IndexError` on `[0]`). -/
structure Event where
  records : Option (List UploadRecord)
deriving DecidableEq

/-- `record['s3']['bucket']['name']`, `record['s3']['object']['key']`:
`none` when any key on the path is missing. -/
def recordBucketKey (r : UploadRecord) : Option (String × String) :=
  match r.s3 with
  | none => none
  | some e =>
    match e.bucketName, e.objectKey with
    | some b, some k => some (b, k)
    | _, _ => none

/-- `event['Records'][0]`: `none` on a missing `Records` key or empty list. -/
def firstRecord (ev : Event) : Option UploadRecord :=
  match ev.records with
  | none => none
  | some rs => rs.head?

/-- Bucket and key of the first record, `none` when the event is malformed
(the `except (KeyError, IndexError)` case of the single-record handlers). -/
def firstRecordBucketKey (ev : Event) : Option (String × String) :=
  match firstRecord ev with
  | none => none
  | some r => recordBucketKey r

/-! ## `serverless-doc-analytics/app.py` (combined pipeline handler) -/

namespace App

/-- `extract_text(bucket, key)`: read the object, then dispatch on the
lower-cased key suffix — `.pdf` parses pages and joins
`page.extract_text() or ""` with spaces, `.txt` decodes leniently, `.csv`
space-joins fields and rows, anything else yields the literal
`"(Unsupported file type)"`.  PDF parse failure is not caught and
propagates. -/
def extract_text (env : Env) (bucket key : String) : Except String String :=
  match env.s3Get bucket key with
  | .error e => .error e
  | .ok obj =>
    let content_bytes := obj.body
    if pyLowerEndsWith key ".pdf" then
      match env.pdfParse content_bytes with
      | .error e => .error e
      | .ok pages => .ok (joinSep " " (pages.map (fun p => p.getD "")))
    else if pyLowerEndsWith key ".txt" then
      .ok (env.decodeIgnore content_bytes)
    else if pyLowerEndsWith key ".csv" then
      .ok (joinSep " "
        ((env.csvParse (env.decodeIgnore content_bytes)).map (joinSep " ")))
    else
      .ok "(Unsupported file type)"

/-- `analyze_text(full_text)`: language via `detect` with a catch-all
fallback to `"unknown"`, then the `"w: c"` summary of the ten most common
tokens. -/
def analyze_text (env : Env) (full_text : String) : String × String :=
  let language :=
    match env.detect full_text with
    | .ok l => l
    | .error _ => "unknown"
  let words := reFindallWordsLower full_text
  let top_words := most_common 10 (counter words)
  let summary := joinSep "\n" (top_words.map (fun wc => wc.1 ++ ": " ++ toString wc.2))
  (language, summary)

/-- `lambda_handler(event, context)`: parse `Records[0]` (returning an error
dictionary on a malformed event), extract, analyze, put one item keyed by a
fresh UUID with the text truncated to 1000 characters, then publish the
report. -/
def lambda_handler (env : Env) (event : Event) :
    Except String Dict × List Effect :=
  match firstRecordBucketKey event with
  | none =>
    (.ok [("status", .s "error"), ("reason", .s "Invalid event structure")], [])
  | some (bucket, key) =>
    match extract_text env bucket key with
    | .error e => (.error e, [])
    | .ok text =>
      let (language, top_words_summary) := analyze_text env text
      let doc_id := env.uuidGen 0
      let item : Dict :=
        [("document_id", .s doc_id), ("file_name", .s key),
         ("language", .s language), ("text", .s (pySlice 1000 text)),
         ("created_at", .s env.now)]
      match env.putRes with
      | .error e => (.error e, [])
      | .ok _ =>
        let message :=
          "📄 Document Analytics Report\n" ++ "File: " ++ key ++ "\n" ++
          "Language Detected: " ++ language ++ "\n" ++
          "Top 10 Words:\n" ++ top_words_summary ++ "\n" ++
          "Document ID: " ++ doc_id ++ "\n" ++ "Uploaded at: " ++ env.now
        match env.publishRes with
        | .error e => (.error e, [Effect.putItem env.tableName item])
        | .ok _ =>
          (.ok [("status", .s "success"), ("file", .s key),
                ("document_id", .s doc_id)],
           [Effect.putItem env.tableName item,
            Effect.publish env.topicArn ("Document Processed: " ++ pyBasename key)
              message])

end App

/-! ## `serverless-doc-analytics/document_processor/app.py` -/

namespace DocProcessor

/-- `extract_text(bucket, key)`: like the combined handler but the dispatch
order is pdf / csv / txt, an unsupported suffix leaves `text = ""`, and the
result is `text.strip()`. -/
def extract_text (env : Env) (bucket key : String) : Except String String :=
  match env.s3Get bucket key with
  | .error e => .error e
  | .ok obj =>
    let data := obj.body
    let textE : Except String String :=
      if pyLowerEndsWith key ".pdf" then
        match env.pdfParse data with
        | .error e => .error e
        | .ok pages => .ok (joinSep " " (pages.map (fun p => p.getD "")))
      else if pyLowerEndsWith key ".csv" then
        .ok (joinSep " " ((env.csvParse (env.decodeIgnore data)).map (joinSep " ")))
      else if pyLowerEndsWith key ".txt" then
        .ok (env.decodeIgnore data)
      else
        .ok ""
    match textE with
    | .error e => .error e
    | .ok text => .ok (pyStrip text)

/-- `analyze_text(text)`: `detect(text) if text else "unknown"` inside a
catch-all, plus `len(text.split())`. -/
def analyze_text (env : Env) (text : String) : String × Nat :=
  let lang :=
    if text ≠ "" then
      match env.detect text with
      | .ok l => l
      | .error _ => "unknown"
    else "unknown"
  (lang, (pySplitWs text).length)

/-- The body of the `for record in event.get('Records', [])` loop: `i` is
the record index (used to draw that record's UUID), the effect trace of the
remaining records is appended after this record's effects.  There is no
per-record exception handling: a raise aborts the remaining records. -/
def go (env : Env) : Nat → List UploadRecord → Except String Unit × List Effect
  | _, [] => (.ok (), [])
  | i, r :: rs =>
    match recordBucketKey r with
    | none => (.error "KeyError", [])
    | some (bucket, key) =>
      match extract_text env bucket key with
      | .error e => (.error e, [])
      | .ok text =>
        let (lang, word_count) := analyze_text env text
        let document_id := env.uuidGen i
        let item : Dict :=
          [("document_id", .s document_id), ("file_name", .s key),
           ("language", .s lang), ("word_count", .n word_count),
           ("uploaded_at", .s env.now)]
        match env.putRes with
        | .error e => (.error e, [])
        | .ok _ =>
          let message :=
            "📄 Document Processed Successfully\n" ++ "File: " ++ key ++ "\n" ++
            "Language: " ++ lang ++ "\n" ++
            "Word Count: " ++ toString word_count ++ "\n" ++
            "Upload Time: " ++ env.now
          match env.publishRes with
          | .error e => (.error e, [Effect.putItem env.tableName item])
          | .ok _ =>
            let rest := go env (i + 1) rs
            (rest.1,
             Effect.putItem env.tableName item ::
             Effect.publish env.topicArn ("Document Processed: " ++ key) message ::
             rest.2)

/-- `lambda_handler(event, context)`: iterate over `event.get('Records', [])`
and return `{"status": "success"}`; any exception inside the loop escapes. -/
def lambda_handler (env : Env) (event : Event) :
    Except String Dict × List Effect :=
  let r := go env 0 (event.records.getD [])
  match r.1 with
  | .error e => (.error e, r.2)
  | .ok _ => (.ok [("status", .s "success")], r.2)

end DocProcessor

/-! ## `serverless-doc-analytics/document_extractor/app.py` -/

namespace DocExtractorSA

/-- `extract_text_from_file(bucket, key)`: read the object; size defaults to
the body length (`obj.get('ContentLength', len(...))`), the upload time to
the current time when `LastModified` is absent.  The `.pdf` branch is
wrapped in try/except and substitutes `""` on parse failure; `.txt`/`.csv`
decode with `utf-8-sig`; other suffixes leave `text = ""`. -/
def extract_text_from_file (env : Env) (bucket key : String) :
    Except String (String × Nat × String) :=
  match env.s3Get bucket key with
  | .error e => .error e
  | .ok obj =>
    let file_content_bytes := obj.body
    let size := obj.contentLength.getD file_content_bytes.length
    let uploaded_at := obj.lastModified.getD env.now
    if pyLowerEndsWith key ".pdf" then
      let text :=
        match env.pdfParse file_content_bytes with
        | .error _ => ""
        | .ok pages => joinSep " " (pages.map (fun p => p.getD ""))
      .ok (text, size, uploaded_at)
    else if pyLowerEndsWith key ".txt" || pyLowerEndsWith key ".csv" then
      let file_content_str := env.decodeSigIgnore file_content_bytes
      if pyLowerEndsWith key ".csv" then
        .ok (joinSep " " ((env.csvParse file_content_str).map (joinSep " ")),
             size, uploaded_at)
      else
        .ok (file_content_str, size, uploaded_at)
    else
      .ok ("", size, uploaded_at)

/-- `lambda_handler(event, context)`: parse `Records[0]` (error dictionary on
malformed events), extract, generate a UUID, put the item (its failure is
caught and turned into an error dictionary), then asynchronously invoke the
analyzer with payload `{'document_id': document_id}` (its failure is caught
and reported as `analysis_triggered: False`). -/
def lambda_handler (env : Env) (event : Event) :
    Except String Dict × List Effect :=
  match firstRecordBucketKey event with
  | none =>
    (.ok [("status", .s "error"), ("message", .s "Invalid S3 event data")], [])
  | some (bucket, key) =>
    match extract_text_from_file env bucket key with
    | .error e => (.error e, [])
    | .ok (text, size, uploaded_at) =>
      let document_id := env.uuidGen 0
      let item : Dict :=
        [("document_id", .s document_id), ("file_name", .s key),
         ("text", .s text), ("size", .n size), ("uploaded_at", .s uploaded_at)]
      match env.putRes with
      | .error _ =>
        (.ok [("status", .s "error"),
              ("message", .s "Failed to persist document")], [])
      | .ok _ =>
        match env.invokeRes with
        | .error _ =>
          (.ok [("status", .s "success"), ("document_id", .s document_id),
                ("analysis_triggered", .b false),
                ("message", .s "Persisted but failed to trigger analyzer")],
           [Effect.putItem env.tableName item])
        | .ok _ =>
          (.ok [("status", .s "success"), ("document_id", .s document_id),
                ("analysis_triggered", .b true)],
           [Effect.putItem env.tableName item,
            Effect.invokeAsync env.analyzerFn [("document_id", .s document_id)]])

end DocExtractorSA

/-! ## standalone `document_extractor/app.py` -/

namespace DocExtractor

/-- `extract_text_from_file(bucket, key)`: like the other extractor but
`ContentLength` and `LastModified` are indexed directly (an absent entry
raises), PDF parse failure is not caught, and text decoding uses plain
`utf-8` with `errors='ignore'`. -/
def extract_text_from_file (env : Env) (bucket key : String) :
    Except String (String × Nat × String) :=
  match env.s3Get bucket key with
  | .error e => .error e
  | .ok obj =>
    match obj.contentLength, obj.lastModified with
    | none, _ => .error "KeyError: ContentLength"
    | _, none => .error "KeyError: LastModified"
    | some size, some uploaded_at =>
      let file_content_bytes := obj.body
      if pyLowerEndsWith key ".pdf" then
        match env.pdfParse file_content_bytes with
        | .error e => .error e
        | .ok pages =>
          .ok (joinSep " " (pages.map (fun p => p.getD "")), size, uploaded_at)
      else if pyLowerEndsWith key ".txt" || pyLowerEndsWith key ".csv" then
        let file_content_str := env.decodeIgnore file_content_bytes
        if pyLowerEndsWith key ".csv" then
          .ok (joinSep " " ((env.csvParse file_content_str).map (joinSep " ")),
               size, uploaded_at)
        else
          .ok (file_content_str, size, uploaded_at)
      else
        .ok ("", size, uploaded_at)

/-- `lambda_handler(event, context)`: parse `Records[0]`, extract, put one
item keyed by a fresh UUID, then asynchronously invoke the analyzer — with
the fixed payload `{'source_event': 'document_extraction_complete'}`, not
the document id.  Put and invoke failures are not caught. -/
def lambda_handler (env : Env) (event : Event) :
    Except String Dict × List Effect :=
  match firstRecordBucketKey event with
  | none =>
    (.ok [("status", .s "error"), ("message", .s "Invalid S3 event data")], [])
  | some (bucket, key) =>
    match extract_text_from_file env bucket key with
    | .error e => (.error e, [])
    | .ok (text, size, uploaded_at) =>
      let document_id := env.uuidGen 0
      let item : Dict :=
        [("document_id", .s document_id), ("file_name", .s key),
         ("text", .s text), ("size", .n size), ("uploaded_at", .s uploaded_at)]
      match env.putRes with
      | .error e => (.error e, [])
      | .ok _ =>
        match env.invokeRes with
        | .error e => (.error e, [Effect.putItem env.tableName item])
        | .ok _ =>
          (.ok [("status", .s "success"), ("document_id", .s document_id),
                ("analysis_triggered", .b true)],
           [Effect.putItem env.tableName item,
            Effect.invokeAsync env.analyzerFn
              [("source_event", .s "document_extraction_complete")]])

end DocExtractor

/-! ## `serverless-doc-analytics/document_analyzer/app.py` -/

namespace DocAnalyzer

/-- Lines 25–29 of `perform_analysis`:
`detect(full_text) if full_text.strip() else 'unknown'` inside a catch-all
falling back to `"unknown"`. -/
def detectLanguage (env : Env) (full_text : String) : String :=
  if pyStrip full_text ≠ "" then
    match env.detect full_text with
    | .ok l => l
    | .error _ => "unknown"
  else "unknown"

/-- The `full_text` built by `perform_analysis`:
`" ".join(item.get('text', '') for item in items)`. -/
def fullText (items : List Dict) : String :=
  joinSep " " (items.map (fun it =>
    match dictGet it "text" with
    | some (.s v) => v
    | _ => ""))

/-- `perform_analysis(items)`: concatenate the texts, detect the language,
count word frequencies and format the report message. -/
def perform_analysis (env : Env) (items : List Dict) : String :=
  let full_text := fullText items
  let language := detectLanguage env full_text
  let words := reFindallWordsLower full_text
  let top_words := most_common 10 (counter words)
  let top_words_str :=
    joinSep "\n" (top_words.map (fun wc => wc.1 ++ ": " ++ toString wc.2))
  "Document Analytics Report\n" ++
  "Analysis Time: " ++ env.now ++ "\n" ++
  "Total Documents Analyzed: " ++ toString items.length ++ "\n" ++
  "Detected Language: " ++ language ++ "\n" ++
  "Top 10 Word Frequencies:\n" ++ top_words_str ++ "\n"

end DocAnalyzer

/-! ## `serverless-doc-analytics/upload_notifier/app.py` -/

namespace UploadNotifier

/-- `record['eventTime']` on top of the bucket/key path. -/
def parseEvent (ev : Event) : Option (String × String × String) :=
  match firstRecord ev with
  | none => none
  | some r =>
    match recordBucketKey r, r.eventTime with
    | some (b, k), some t => some (b, k, t)
    | _, _ => none

/-- `lambda_handler(event, context)`: parse bucket, key and event time under
a catch-all returning an error dictionary, format the message, then publish.
The source file in the repository breaks off inside the `sns.publish(` call;
the publish arguments and the final return value past that point are
modelled from the spec (a subject naming the object and a success status),
which is irrelevant to the parse-failure behaviour proved below. -/
def lambda_handler (env : Env) (event : Event) :
    Except String Dict × List Effect :=
  match parseEvent event with
  | none => (.ok [("status", .s "error"), ("message", .s "Error parsing event")], [])
  | some (bucket, key, event_time) =>
    let message :=
      "📂 New file uploaded!\n" ++ "Bucket: " ++ bucket ++ "\n" ++
      "File: " ++ key ++ "\n" ++ "Upload time: " ++ event_time ++ "\n\n" ++
      "The system will now extract and analyze this file automatically."
    match env.publishRes with
    | .error e => (.error e, [])
    | .ok _ =>
      (.ok [("status", .s "success"), ("file", .s key)],
       [Effect.publish env.topicArn ("New Upload: " ++ key) message])

end UploadNotifier

/-! ## Concrete model environments for witnesses and counterexamples -/

/-- An S3 object whose metadata is fully populated. -/
def mkObj (bytes : List Nat) : S3Obj :=
  ⟨bytes, some bytes.length, some "2024-01-01T00:00:00"⟩

/-- A wellformed upload record. -/
def mkRec (b k : String) : UploadRecord :=
  ⟨some ⟨some b, some k⟩, some "2024-01-01T00:00:00"⟩

/-- Model of `langdetect.detect`: raises (`LangDetectException`, "No
features in text.") on text without word features — in particular on every
empty or whitespace-only string — and returns a language code otherwise. -/
def detectModel : String → Except Unit String :=
  fun s => if pyStrip s = "" then .error () else .ok "en"

/-- Model of lenient `bytes.decode(..., errors='ignore')`, restricted to the
ASCII plane the claims exercise: non-ASCII bytes are dropped.  On empty
input it returns the empty string, as every decoder does. -/
def decodeModel (bytes : List Nat) : String :=
  String.mk (bytes.filterMap (fun b => if b < 128 then some (Char.ofNat b) else none))

/-- Model of `PyPDF2.PdfReader` plus `page.extract_text()` per page: empty
input raises (`EmptyFileError`, "Cannot read an empty file" — an empty byte
string is not a well-formed PDF), otherwise a single page is produced. -/
def pdfModel (bytes : List Nat) : Except String (List (Option String)) :=
  if bytes = [] then .error "EmptyFileError: Cannot read an empty file"
  else .ok [some "page"]

/-- Model of `csv.reader`: no rows on empty input (as `csv.reader` yields),
a single one-field row otherwise. -/
def csvModel (s : String) : List (List String) :=
  if s = "" then [] else [[s]]

/-- A fully successful concrete environment. -/
def envBase : Env where
  s3Get := fun _ _ => .ok (mkObj [104, 105])
  pdfParse := pdfModel
  csvParse := csvModel
  decodeIgnore := decodeModel
  decodeSigIgnore := decodeModel
  detect := detectModel
  uuidGen := fun i => "uuid-" ++ toString i
  now := "2024-01-01T00:00:00"
  putRes := .ok ()
  publishRes := .ok ()
  invokeRes := .ok ()
  tableName := "DocumentsTable"
  topicArn := "arn:aws:sns:Topic"
  analyzerFn := "AnalyzerFunction"

/-- Environment in which reading the object `k2.txt` fails (the object is
missing), while every other read succeeds. -/
def envC1 : Env :=
  { envBase with
    s3Get := fun _ key =>
      if key = "k2.txt" then .error "NoSuchKey" else .ok (mkObj [104, 105]) }

/-- Environment in which every object read returns empty byte content. -/
def envEmpty : Env :=
  { envBase with s3Get := fun _ _ => .ok (mkObj []) }

/-- A second successful environment whose UUID draws differ from
`envBase`'s, modelling a later invocation. -/
def envSecond : Env :=
  { envBase with uuidGen := fun i => "uuid-second-" ++ toString i }

/-- A batch of three wellformed records whose second object is `k2.txt`. -/
def eventC1 : Event :=
  ⟨some [mkRec "b" "k1.txt", mkRec "b" "k2.txt", mkRec "b" "k3.txt"]⟩

/-- A wellformed single-record event for the object `k1.txt`. -/
def eventSingle : Event := ⟨some [mkRec "b" "k1.txt"]⟩

/-- An event without a `Records` key. -/
def eventNoRecords : Event := ⟨none⟩

/-- How many `putItem` effects in the trace carry the given `file_name`. -/
def putsForFile (effs : List Effect) (fname : String) : Nat :=
  effs.countP (fun e =>
    match e with
    | Effect.putItem _ it => dictGet it "file_name" == some (AttrVal.s fname)
    | _ => false)

/-- The DynamoDB items written in a trace, in order. -/
def putsOf (effs : List Effect) : List Dict :=
  effs.filterMap (fun e =>
    match e with
    | Effect.putItem _ it => some it
    | _ => none)

/-- How many store reads (`get_item` or `scan`) a trace contains. -/
def readsOf (effs : List Effect) : Nat :=
  effs.countP (fun e =>
    match e with
    | Effect.getItem _ _ => true
    | Effect.scan _ => true
    | _ => false)

/-! ## Helper lemmas: stable descending sort -/

theorem mem_insertDesc (x a : String × Nat) (l : List (String × Nat)) :
    a ∈ insertDesc x l ↔ a = x ∨ a ∈ l := by
  induction l with
  | nil => simp [insertDesc]
  | cons y ys ih =>
    by_cases h : y.2 ≤ x.2
    · simp [insertDesc, h]
    · simp [insertDesc, h, ih]
      tauto

theorem pairwise_insertDesc (x : String × Nat) (l : List (String × Nat))
    (hl : l.Pairwise (fun a b => b.2 ≤ a.2)) :
    (insertDesc x l).Pairwise (fun a b => b.2 ≤ a.2) := by
  induction l with
  | nil => simp [insertDesc]
  | cons y ys ih =>
    rw [List.pairwise_cons] at hl
    obtain ⟨hy, hys⟩ := hl
    by_cases h : y.2 ≤ x.2
    · simp only [insertDesc, if_pos h, List.pairwise_cons]
      refine ⟨?_, ?_, hys⟩
      · intro b hb
        rcases List.mem_cons.1 hb with rfl | hb
        · exact h
        · exact le_trans (hy b hb) h
      · exact hy
    · simp only [insertDesc, if_neg h, List.pairwise_cons]
      refine ⟨?_, ih hys⟩
      intro b hb
      rcases (mem_insertDesc x b ys).1 hb with hb | hb
      · subst hb; exact le_of_lt (lt_of_not_le h)
      · exact hy b hb

theorem pairwise_sortDesc (l : List (String × Nat)) :
    (sortDesc l).Pairwise (fun a b => b.2 ≤ a.2) := by
  induction l with
  | nil => simp [sortDesc]
  | cons x xs ih => exact pairwise_insertDesc x (sortDesc xs) ih

theorem filter_insertDesc (c : Nat) (x : String × Nat) (l : List (String × Nat)) :
    (insertDesc x l).filter (fun p => p.2 == c) =
      if x.2 = c then x :: l.filter (fun p => p.2 == c)
      else l.filter (fun p => p.2 == c) := by
  induction l with
  | nil =>
    by_cases hx : x.2 = c <;>
      simp [insertDesc, List.filter_cons, beq_iff_eq, hx]
  | cons y ys ih =>
    by_cases h : y.2 ≤ x.2
    · simp only [insertDesc, if_pos h]
      by_cases hx : x.2 = c <;>
        simp [List.filter_cons, beq_iff_eq, hx]
    · have hxy : x.2 < y.2 := lt_of_not_le h
      simp only [insertDesc, if_neg h]
      by_cases hx : x.2 = c
      · have hyc : ¬(y.2 = c) := by omega
        simp [List.filter_cons, beq_iff_eq, hx, hyc, ih]
      · by_cases hyc : y.2 = c <;>
          simp [List.filter_cons, beq_iff_eq, hx, hyc, ih]

theorem filter_sortDesc (c : Nat) (l : List (String × Nat)) :
    (sortDesc l).filter (fun p => p.2 == c) = l.filter (fun p => p.2 == c) := by
  induction l with
  | nil => simp [sortDesc]
  | cons x xs ih =>
    simp only [sortDesc, filter_insertDesc, ih]
    by_cases hx : x.2 = c <;>
      simp [List.filter_cons, beq_iff_eq, hx]

/-! ## Helper lemmas: tokenizer -/

theorem tokenizeAux_wordChars (l : List Char) :
    ∀ acc : List Char, (∀ c ∈ acc, isWordChar c = true) →
      ∀ t ∈ tokenizeAux l acc, t ≠ [] ∧ ∀ c ∈ t, isWordChar c = true := by
  induction l with
  | nil =>
    intro acc hacc t ht
    by_cases h : acc = []
    · simp [tokenizeAux, h] at ht
    · simp only [tokenizeAux, if_neg h, List.mem_singleton] at ht
      subst ht
      refine ⟨by simpa using h, ?_⟩
      intro c hc
      exact hacc c (List.mem_reverse.1 hc)
  | cons c cs ih =>
    intro acc hacc t ht
    by_cases hw : isWordChar c
    · refine ih (c :: acc) ?_ t (by simpa [tokenizeAux, hw] using ht)
      intro d hd
      rcases List.mem_cons.1 hd with rfl | hd
      · exact hw
      · exact hacc d hd
    · by_cases h : acc = []
      · exact ih [] (by simp) t (by simpa [tokenizeAux, hw, h] using ht)
      · simp only [tokenizeAux, if_neg hw, if_neg h, List.mem_cons] at ht
        rcases ht with ht | ht
        · subst ht
          refine ⟨by simpa using h, ?_⟩
          intro d hd
          exact hacc d (List.mem_reverse.1 hd)
        · exact ih [] (by simp) t ht

/-! ## Claim theorems -/

/-- C5: for every detector behaving like `langdetect` (failing on
whitespace-only text) and every input text, the language computed by
`document_processor.analyze_text` and by the `document_analyzer` language
step is exactly the sentinel `"unknown"` whenever the text is empty or
whitespace-only, and whenever the detector fails.  Both functions are total
Lean functions over a fallible detector, so detection never raises. -/
theorem claim5_language_sentinel (env : Env) (text : String)
    (hdetect : ∀ s : String, pyStrip s = "" → env.detect s = .error ()) :
    (pyStrip text = "" →
      (DocProcessor.analyze_text env text).1 = "unknown" ∧
      DocAnalyzer.detectLanguage env text = "unknown") ∧
    (env.detect text = .error () →
      (DocProcessor.analyze_text env text).1 = "unknown" ∧
      DocAnalyzer.detectLanguage env text = "unknown") := by
  constructor
  · intro hws
    constructor
    · by_cases he : text = ""
      · simp [DocProcessor.analyze_text, he]
      · simp [DocProcessor.analyze_text, he, hdetect text hws]
    · simp [DocAnalyzer.detectLanguage, hws]
  · intro herr
    constructor
    · by_cases he : text = ""
      · simp [DocProcessor.analyze_text, he]
      · simp [DocProcessor.analyze_text, he, herr]
    · by_cases hws : pyStrip text = ""
      · simp [DocAnalyzer.detectLanguage, hws]
      · simp [DocAnalyzer.detectLanguage, hws, herr]

/-- Witness for C5 at the whitespace-only text `"  "` in the concrete
environment. -/
theorem claim5_witness :
    (DocProcessor.analyze_text envBase "  ").1 = "unknown" ∧
    DocAnalyzer.detectLanguage envBase "  " = "unknown" :=
  (claim5_language_sentinel envBase "  "
    (fun s hs => by simp [envBase, detectModel, hs])).1 (by decide)

/-- C6: the top-10 list the analyzers build (`most_common 10` over the
token counter) has length at most 10, is sorted by non-increasing count,
and its entries of any fixed count form a prefix of the first-seen-ordered
counter entries of that count (ties keep first-seen order); the last
conjunct ties this list to `analyze_text`'s summary output. -/
theorem claim6_topk_sorted_stable (env : Env) (text : String) :
    (most_common 10 (counter (reFindallWordsLower text))).length ≤ 10 ∧
    (most_common 10 (counter (reFindallWordsLower text))).Pairwise
      (fun a b => b.2 ≤ a.2) ∧
    (∀ c : Nat,
      (most_common 10 (counter (reFindallWordsLower text))).filter
          (fun p => p.2 == c) <+:
        (counter (reFindallWordsLower text)).filter (fun p => p.2 == c)) ∧
    (App.analyze_text env text).2 =
      joinSep "\n" ((most_common 10 (counter (reFindallWordsLower text))).map
        (fun wc => wc.1 ++ ": " ++ toString wc.2)) := by
  refine ⟨List.length_take_le 10 _, ?_, ?_, rfl⟩
  · exact (pairwise_sortDesc _).sublist (List.take_sublist 10 _)
  · intro c
    have h1 := List.IsPrefix.filter (fun p => p.2 == c)
      ( List.take_prefix 10 (sortDesc (counter (reFindallWordsLower text))))
    rw [filter_sortDesc] at h1
    exact h1

/-- C7: tokenization as performed by the analyzers
(`re.findall(r'\b\w+\b', text.lower())`) yields `"word"` with count 3 on
`"Word word WORD"`, splits on punctuation into maximal alphanumeric or
underscore runs, produces only nonempty tokens made of word characters,
and is case-insensitive (texts equal after case folding tokenize
identically). -/
theorem claim7_tokenization (s₁ s₂ : String) :
    counter (reFindallWordsLower "Word word WORD") = [("word", 3)] ∧
    reFindallWordsLower "ab_1, cd!ef" = ["ab_1", "cd", "ef"] ∧
    (∀ t ∈ reFindallWordsLower s₁, t ≠ "" ∧ ∀ c ∈ t.data, isWordChar c = true) ∧
    (lowerChars s₁.data = lowerChars s₂.data →
      reFindallWordsLower s₁ = reFindallWordsLower s₂) := by
  refine ⟨by decide, by decide, ?_, ?_⟩
  · intro t ht
    simp only [reFindallWordsLower, List.mem_map] at ht
    obtain ⟨tok, htok, rfl⟩ := ht
    have h := tokenizeAux_wordChars (lowerChars s₁.data) [] (by simp) tok htok
    refine ⟨?_, h.2⟩
    intro hcon
    apply h.1
    simpa [String.ext_iff] using hcon
  · intro h
    simp only [reFindallWordsLower, h]

/-- Witness for C7 at concrete tokens and texts. -/
theorem claim7_witness :
    (("word" : String) ≠ "" ∧ ∀ c ∈ ("word" : String).data, isWordChar c = true) ∧
    reFindallWordsLower "A-b" = reFindallWordsLower "a-B" :=
  ⟨(claim7_tokenization "Word word WORD" "").2.2.1 "word" (by decide),
   (claim7_tokenization "A-b" "a-B").2.2.2 (by decide)⟩

/-- C9: a malformed event (missing `Records`/`s3`/`bucket`/`object` path,
or — for the notifier — `eventTime`) makes the combined handler, the
standalone extractor handler and the upload notifier return an error-status
dictionary with an empty effect trace: no store write, no publish, no
secondary invocation. -/
theorem claim9_malformed_no_effects (env : Env) (event : Event) :
    (firstRecordBucketKey event = none →
      App.lambda_handler env event =
        (.ok [("status", .s "error"), ("reason", .s "Invalid event structure")],
         []) ∧
      DocExtractor.lambda_handler env event =
        (.ok [("status", .s "error"), ("message", .s "Invalid S3 event data")],
         [])) ∧
    (UploadNotifier.parseEvent event = none →
      UploadNotifier.lambda_handler env event =
        (.ok [("status", .s "error"), ("message", .s "Error parsing event")],
         [])) := by
  constructor
  · intro h
    constructor <;>
      simp [App.lambda_handler, DocExtractor.lambda_handler, h]
  · intro h
    simp [UploadNotifier.lambda_handler, h]

/-- Witness for C9 at an event without a `Records` key. -/
theorem claim9_witness :
    (App.lambda_handler envBase eventNoRecords =
      (.ok [("status", .s "error"), ("reason", .s "Invalid event structure")],
       []) ∧
     DocExtractor.lambda_handler envBase eventNoRecords =
      (.ok [("status", .s "error"), ("message", .s "Invalid S3 event data")],
       [])) ∧
    UploadNotifier.lambda_handler envBase eventNoRecords =
      (.ok [("status", .s "error"), ("message", .s "Error parsing event")],
       []) :=
  ⟨(claim9_malformed_no_effects envBase eventNoRecords).1 (by decide),
   (claim9_malformed_no_effects envBase eventNoRecords).2 (by decide)⟩

/-- C10: in the combined pipeline handler, the first effect of a successful
run is the DynamoDB put whose `text` attribute is `text[:1000]` — a prefix
of the extracted text of length at most 1000; nothing beyond the first 1000
characters is stored. -/
theorem claim10_stored_text_truncated (env : Env) (event : Event)
    (bucket key text : String)
    (hbk : firstRecordBucketKey event = some (bucket, key))
    (hex : App.extract_text env bucket key = .ok text)
    (hput : env.putRes = .ok ()) :
    (App.lambda_handler env event).2.head? = some (Effect.putItem env.tableName
      [("document_id", .s (env.uuidGen 0)), ("file_name", .s key),
       ("language", .s (App.analyze_text env text).1),
       ("text", .s (pySlice 1000 text)), ("created_at", .s env.now)]) ∧
    (pySlice 1000 text).data <+: text.data ∧
    (pySlice 1000 text).length ≤ 1000 := by
  refine ⟨?_, ?_, ?_⟩
  · rcases hpair : App.analyze_text env text with ⟨lang, summary⟩
    simp only [App.lambda_handler, hbk]
    simp only [hex]
    simp only [hpair]
    simp only [hput]
    cases hpub : env.publishRes <;> simp
  · simpa [pySlice] using List.take_prefix 1000 text.data
  · exact List.length_take_le 1000 text.data

/-- Witness for C10 on a concrete run. -/
theorem claim10_witness :
    (App.lambda_handler envBase eventSingle).2.head? =
      some (Effect.putItem envBase.tableName
        [("document_id", .s (envBase.uuidGen 0)), ("file_name", .s "k1.txt"),
         ("language", .s (App.analyze_text envBase "hi").1),
         ("text", .s (pySlice 1000 "hi")), ("created_at", .s envBase.now)]) ∧
    (pySlice 1000 "hi").data <+: ("hi" : String).data ∧
    (pySlice 1000 "hi").length ≤ 1000 :=
  claim10_stored_text_truncated envBase eventSingle "b" "k1.txt" "hi"
    (by decide) (by decide) (by decide)

/-- C8: under successful reads and writes, each extractor/processor run
writes exactly one store record, keyed by the freshly drawn UUID, and
issues no store read (`get_item`/`scan`); two runs of the standalone
extractor on the same object name with distinct UUID draws write two
distinct records with two distinct `document_id`s — no deduplication. -/
theorem claim8_fresh_id_no_dedup (env1 env2 envp : Env) (event : Event)
    (r : UploadRecord) (bucket key t1 t2 tp : String) (s1 s2 : Nat)
    (u1 u2 : String)
    (hrs : event.records = some [r])
    (hr : recordBucketKey r = some (bucket, key))
    (hx1 : DocExtractor.extract_text_from_file env1 bucket key = .ok (t1, s1, u1))
    (hx2 : DocExtractor.extract_text_from_file env2 bucket key = .ok (t2, s2, u2))
    (hxp : DocProcessor.extract_text envp bucket key = .ok tp)
    (hput1 : env1.putRes = .ok ()) (hput2 : env2.putRes = .ok ())
    (hputp : envp.putRes = .ok ())
    (hinv1 : env1.invokeRes = .ok ()) (hinv2 : env2.invokeRes = .ok ())
    (hpubp : envp.publishRes = .ok ())
    (hid : env1.uuidGen 0 ≠ env2.uuidGen 0) :
    putsOf (DocExtractor.lambda_handler env1 event).2 =
      [[("document_id", .s (env1.uuidGen 0)), ("file_name", .s key),
        ("text", .s t1), ("size", .n s1), ("uploaded_at", .s u1)]] ∧
    putsOf (DocExtractor.lambda_handler env2 event).2 =
      [[("document_id", .s (env2.uuidGen 0)), ("file_name", .s key),
        ("text", .s t2), ("size", .n s2), ("uploaded_at", .s u2)]] ∧
    ([("document_id", AttrVal.s (env1.uuidGen 0)), ("file_name", .s key),
      ("text", .s t1), ("size", .n s1), ("uploaded_at", .s u1)] : Dict) ≠
      [("document_id", AttrVal.s (env2.uuidGen 0)), ("file_name", .s key),
       ("text", .s t2), ("size", .n s2), ("uploaded_at", .s u2)] ∧
    AttrVal.s (env1.uuidGen 0) ≠ AttrVal.s (env2.uuidGen 0) ∧
    putsOf (DocProcessor.lambda_handler envp event).2 =
      [[("document_id", .s (envp.uuidGen 0)), ("file_name", .s key),
        ("language", .s (DocProcessor.analyze_text envp tp).1),
        ("word_count", .n (DocProcessor.analyze_text envp tp).2),
        ("uploaded_at", .s envp.now)]] ∧
    readsOf (DocExtractor.lambda_handler env1 event).2 = 0 ∧
    readsOf (DocExtractor.lambda_handler env2 event).2 = 0 ∧
    readsOf (DocProcessor.lambda_handler envp event).2 = 0 := by
  have hbk : firstRecordBucketKey event = some (bucket, key) := by
    simp [firstRecordBucketKey, firstRecord, hrs, hr]
  refine ⟨?_, ?_, ?_, ?_, ?_, ?_, ?_, ?_⟩
  · simp [DocExtractor.lambda_handler, hbk, hx1, hput1, hinv1, putsOf]
  · simp [DocExtractor.lambda_handler, hbk, hx2, hput2, hinv2, putsOf]
  · simp [hid]
  · simp [hid]
  · simp only [DocProcessor.lambda_handler, hrs, Option.getD]
    simp only [DocProcessor.go, hr, hxp]
    simp only [hputp, hpubp]
    rcases hpair : DocProcessor.analyze_text envp tp with ⟨lang, wc⟩
    simp only [hpair]
    simp [DocProcessor.go, putsOf]
  · simp [DocExtractor.lambda_handler, hbk, hx1, hput1, hinv1, readsOf]
  · simp [DocExtractor.lambda_handler, hbk, hx2, hput2, hinv2, readsOf]
  · simp only [DocProcessor.lambda_handler, hrs, Option.getD]
    simp only [DocProcessor.go, hr, hxp]
    simp only [hputp, hpubp]
    rcases hpair : DocProcessor.analyze_text envp tp with ⟨lang, wc⟩
    simp only [hpair]
    simp [DocProcessor.go, readsOf]

/-- Witness for C8: two concrete runs on the object `k1.txt` with distinct
UUID draws. -/
theorem claim8_witness :
    putsOf (DocExtractor.lambda_handler envBase eventSingle).2 =
      [[("document_id", .s (envBase.uuidGen 0)), ("file_name", .s "k1.txt"),
        ("text", .s "hi"), ("size", .n 2),
        ("uploaded_at", .s "2024-01-01T00:00:00")]] ∧
    putsOf (DocExtractor.lambda_handler envSecond eventSingle).2 =
      [[("document_id", .s (envSecond.uuidGen 0)), ("file_name", .s "k1.txt"),
        ("text", .s "hi"), ("size", .n 2),
        ("uploaded_at", .s "2024-01-01T00:00:00")]] ∧
    ([("document_id", AttrVal.s (envBase.uuidGen 0)),
      ("file_name", .s "k1.txt"), ("text", .s "hi"), ("size", .n 2),
      ("uploaded_at", .s "2024-01-01T00:00:00")] : Dict) ≠
      [("document_id", AttrVal.s (envSecond.uuidGen 0)),
       ("file_name", .s "k1.txt"), ("text", .s "hi"), ("size", .n 2),
       ("uploaded_at", .s "2024-01-01T00:00:00")] ∧
    AttrVal.s (envBase.uuidGen 0) ≠ AttrVal.s (envSecond.uuidGen 0) ∧
    putsOf (DocProcessor.lambda_handler envBase eventSingle).2 =
      [[("document_id", .s (envBase.uuidGen 0)), ("file_name", .s "k1.txt"),
        ("language", .s (DocProcessor.analyze_text envBase "hi").1),
        ("word_count", .n (DocProcessor.analyze_text envBase "hi").2),
        ("uploaded_at", .s envBase.now)]] ∧
    readsOf (DocExtractor.lambda_handler envBase eventSingle).2 = 0 ∧
    readsOf (DocExtractor.lambda_handler envSecond eventSingle).2 = 0 ∧
    readsOf (DocProcessor.lambda_handler envBase eventSingle).2 = 0 :=
  claim8_fresh_id_no_dedup envBase envSecond envBase eventSingle
    (mkRec "b" "k1.txt") "b" "k1.txt" "hi" "hi" "hi" 2 2
    "2024-01-01T00:00:00" "2024-01-01T00:00:00"
    (by decide) (by decide) (by decide) (by decide) (by decide) (by decide)
    (by decide) (by decide) (by decide) (by decide) (by decide) (by decide)

/-- C1 fails on the code: on a batch of three records whose second object
read raises, the processor handler fully processes record 1, then the
exception escapes — the result is a bare error (no per-record failure
entry) and record 3 is never processed (no store write for `k3.txt`). -/
theorem claim1_counterexample :
    (DocProcessor.lambda_handler envC1 eventC1).1 = Except.error "NoSuchKey" ∧
    putsForFile (DocProcessor.lambda_handler envC1 eventC1).2 "k1.txt" = 1 ∧
    putsForFile (DocProcessor.lambda_handler envC1 eventC1).2 "k2.txt" = 0 ∧
    putsForFile (DocProcessor.lambda_handler envC1 eventC1).2 "k3.txt" = 0 := by
  decide

/-- C1 amended: the processor handler iterates over the batch but a
record whose storage read raises aborts the loop immediately — the
remaining records produce no effects and no per-record entry is
returned — while the combined handler only ever looks at the first record
of any batch. -/
theorem claim1_amended (env env2 : Env) (i : Nat) (r r2 : UploadRecord)
    (rs rs2 : List UploadRecord) (bucket key e : String)
    (hr : recordBucketKey r = some (bucket, key))
    (hx : DocProcessor.extract_text env bucket key = .error e) :
    DocProcessor.go env i (r :: rs) = (.error e, []) ∧
    App.lambda_handler env2 ⟨some (r2 :: rs2)⟩ =
      App.lambda_handler env2 ⟨some [r2]⟩ := by
  constructor
  · simp only [DocProcessor.go, hr, hx]
  · rfl

/-- Witness for C1's amended statement: aborting at the failing second
record of the three-record batch, and first-record-only processing. -/
theorem claim1_witness :
    DocProcessor.go envC1 1 [mkRec "b" "k2.txt", mkRec "b" "k3.txt"] =
      (.error "NoSuchKey", []) ∧
    App.lambda_handler envBase ⟨some [mkRec "b" "k1.txt", mkRec "b" "k2.txt"]⟩ =
      App.lambda_handler envBase ⟨some [mkRec "b" "k1.txt"]⟩ :=
  claim1_amended envC1 envBase 1 (mkRec "b" "k2.txt") (mkRec "b" "k1.txt")
    [mkRec "b" "k3.txt"] [mkRec "b" "k2.txt"] "b" "k2.txt" "NoSuchKey"
    (by decide) (by decide)

/-- C2 fails on the code: for `.pdf`, the combined handler's `extract_text`
does not catch the PDF parser, and the parser rejects empty byte content
(PyPDF2 raises `EmptyFileError` on an empty file, as `pdfModel` records),
so extraction of empty content raises instead of returning `""`. -/
theorem claim2_counterexample :
    App.extract_text envEmpty "b" "a.pdf" =
      Except.error "EmptyFileError: Cannot read an empty file" := by
  decide

/-- C2 amended: on empty byte content, `.txt` and `.csv` extraction return
`""` in all three extractors; for `.pdf`, the extractor variant (whose PDF
branch is wrapped in try/except) returns `""`, but the combined and
processor variants propagate the parser's failure, and the paginated
parser fails on empty input. -/
theorem claim2_amended (env : Env) (bucket key e : String) (obj : S3Obj)
    (hget : env.s3Get bucket key = .ok obj) (hbody : obj.body = [])
    (hdec : env.decodeIgnore [] = "") (hdecsig : env.decodeSigIgnore [] = "")
    (hcsv : env.csvParse "" = [])
    (hpdfe : env.pdfParse [] = .error e) :
    (pyLowerEndsWith key ".pdf" = false → pyLowerEndsWith key ".txt" = true →
      pyLowerEndsWith key ".csv" = false →
      App.extract_text env bucket key = .ok "" ∧
      DocProcessor.extract_text env bucket key = .ok "" ∧
      DocExtractorSA.extract_text_from_file env bucket key =
        .ok ("", obj.contentLength.getD 0, obj.lastModified.getD env.now)) ∧
    (pyLowerEndsWith key ".pdf" = false → pyLowerEndsWith key ".txt" = false →
      pyLowerEndsWith key ".csv" = true →
      App.extract_text env bucket key = .ok "" ∧
      DocProcessor.extract_text env bucket key = .ok "" ∧
      DocExtractorSA.extract_text_from_file env bucket key =
        .ok ("", obj.contentLength.getD 0, obj.lastModified.getD env.now)) ∧
    (pyLowerEndsWith key ".pdf" = true →
      App.extract_text env bucket key = .error e ∧
      DocProcessor.extract_text env bucket key = .error e ∧
      DocExtractorSA.extract_text_from_file env bucket key =
        .ok ("", obj.contentLength.getD 0, obj.lastModified.getD env.now)) := by
  refine ⟨?_, ?_, ?_⟩
  · intro hpdf htxt hcsvt
    refine ⟨?_, ?_, ?_⟩
    · simp [App.extract_text, hget, hbody, hpdf, htxt, hdec]
    · simp [DocProcessor.extract_text, hget, hbody, hpdf, htxt, hcsvt, hdec,
        pyStrip]
    · simp [DocExtractorSA.extract_text_from_file, hget, hbody, hpdf, htxt,
        hcsvt, hdecsig]
  · intro hpdf htxt hcsvt
    refine ⟨?_, ?_, ?_⟩
    · simp [App.extract_text, hget, hbody, hpdf, htxt, hcsvt, hdec, hcsv,
        joinSep]
    · simp [DocProcessor.extract_text, hget, hbody, hpdf, hcsvt, hdec, hcsv,
        pyStrip, joinSep]
    · simp [DocExtractorSA.extract_text_from_file, hget, hbody, hpdf, htxt,
        hcsvt, hdecsig, hcsv, joinSep]
  · intro hpdf
    refine ⟨?_, ?_, ?_⟩
    · simp [App.extract_text, hget, hbody, hpdf, hpdfe]
    · simp [DocProcessor.extract_text, hget, hbody, hpdf, hpdfe]
    · simp [DocExtractorSA.extract_text_from_file, hget, hbody, hpdf, hpdfe]

/-- Witness for C2's amended statement at the keys `a.txt`, `a.csv` and
`a.pdf` with empty object content. -/
theorem claim2_witness :
    (App.extract_text envEmpty "b" "a.txt" = .ok "" ∧
     DocProcessor.extract_text envEmpty "b" "a.txt" = .ok "" ∧
     DocExtractorSA.extract_text_from_file envEmpty "b" "a.txt" =
       .ok ("", (mkObj []).contentLength.getD 0,
            (mkObj []).lastModified.getD envEmpty.now)) ∧
    (App.extract_text envEmpty "b" "a.csv" = .ok "" ∧
     DocProcessor.extract_text envEmpty "b" "a.csv" = .ok "" ∧
     DocExtractorSA.extract_text_from_file envEmpty "b" "a.csv" =
       .ok ("", (mkObj []).contentLength.getD 0,
            (mkObj []).lastModified.getD envEmpty.now)) ∧
    (App.extract_text envEmpty "b" "a.pdf" =
       .error "EmptyFileError: Cannot read an empty file" ∧
     DocProcessor.extract_text envEmpty "b" "a.pdf" =
       .error "EmptyFileError: Cannot read an empty file" ∧
     DocExtractorSA.extract_text_from_file envEmpty "b" "a.pdf" =
       .ok ("", (mkObj []).contentLength.getD 0,
            (mkObj []).lastModified.getD envEmpty.now)) :=
  ⟨(claim2_amended envEmpty "b" "a.txt"
      "EmptyFileError: Cannot read an empty file" (mkObj [])
      (by decide) (by decide) (by decide) (by decide) (by decide)
      (by decide)).1 (by decide) (by decide) (by decide),
   (claim2_amended envEmpty "b" "a.csv"
      "EmptyFileError: Cannot read an empty file" (mkObj [])
      (by decide) (by decide) (by decide) (by decide) (by decide)
      (by decide)).2.1 (by decide) (by decide) (by decide),
   (claim2_amended envEmpty "b" "a.pdf"
      "EmptyFileError: Cannot read an empty file" (mkObj [])
      (by decide) (by decide) (by decide) (by decide) (by decide)
      (by decide)).2.2 (by decide)⟩

/-- C3 fails on the code: a concrete successful run of the standalone
extractor handler issues its secondary asynchronous invocation with the
fixed payload `{'source_event': 'document_extraction_complete'}` — the
freshly generated document identifier (`uuid-0`) is absent from the
payload. -/
theorem claim3_counterexample :
    (DocExtractor.lambda_handler envBase eventSingle).2 =
      [Effect.putItem "DocumentsTable"
        [("document_id", .s "uuid-0"), ("file_name", .s "k1.txt"),
         ("text", .s "hi"), ("size", .n 2),
         ("uploaded_at", .s "2024-01-01T00:00:00")],
       Effect.invokeAsync "AnalyzerFunction"
         [("source_event", .s "document_extraction_complete")]] ∧
    dictGet [("source_event", AttrVal.s "document_extraction_complete")]
      "document_id" = none := by
  decide

/-- C3 amended: after a successful persist, the serverless-doc-analytics
extractor's asynchronous invocation carries the freshly generated document
identifier as payload, but the standalone extractor's carries only the
fixed `source_event` marker without it. -/
theorem claim3_amended (env : Env) (event : Event)
    (bucket key tA tB : String) (sA sB : Nat) (uA uB : String)
    (hbk : firstRecordBucketKey event = some (bucket, key))
    (hxA : DocExtractorSA.extract_text_from_file env bucket key =
      .ok (tA, sA, uA))
    (hxB : DocExtractor.extract_text_from_file env bucket key =
      .ok (tB, sB, uB))
    (hput : env.putRes = .ok ()) (hinv : env.invokeRes = .ok ()) :
    (DocExtractorSA.lambda_handler env event).2 =
      [Effect.putItem env.tableName
        [("document_id", .s (env.uuidGen 0)), ("file_name", .s key),
         ("text", .s tA), ("size", .n sA), ("uploaded_at", .s uA)],
       Effect.invokeAsync env.analyzerFn
         [("document_id", .s (env.uuidGen 0))]] ∧
    (DocExtractor.lambda_handler env event).2 =
      [Effect.putItem env.tableName
        [("document_id", .s (env.uuidGen 0)), ("file_name", .s key),
         ("text", .s tB), ("size", .n sB), ("uploaded_at", .s uB)],
       Effect.invokeAsync env.analyzerFn
         [("source_event", .s "document_extraction_complete")]] := by
  constructor
  · simp [DocExtractorSA.lambda_handler, hbk, hxA, hput, hinv]
  · simp [DocExtractor.lambda_handler, hbk, hxB, hput, hinv]

/-- Witness for C3's amended statement on a concrete run. -/
theorem claim3_witness :
    (DocExtractorSA.lambda_handler envBase eventSingle).2 =
      [Effect.putItem envBase.tableName
        [("document_id", .s (envBase.uuidGen 0)), ("file_name", .s "k1.txt"),
         ("text", .s "hi"), ("size", .n 2),
         ("uploaded_at", .s "2024-01-01T00:00:00")],
       Effect.invokeAsync envBase.analyzerFn
         [("document_id", .s (envBase.uuidGen 0))]] ∧
    (DocExtractor.lambda_handler envBase eventSingle).2 =
      [Effect.putItem envBase.tableName
        [("document_id", .s (envBase.uuidGen 0)), ("file_name", .s "k1.txt"),
         ("text", .s "hi"), ("size", .n 2),
         ("uploaded_at", .s "2024-01-01T00:00:00")],
       Effect.invokeAsync envBase.analyzerFn
         [("source_event", .s "document_extraction_complete")]] :=
  claim3_amended envBase eventSingle "b" "k1.txt" "hi" "hi" 2 2
    "2024-01-01T00:00:00" "2024-01-01T00:00:00"
    (by decide) (by decide) (by decide) (by decide) (by decide)

/-- C4 fails on the code: for the unsupported extension `.docx`, the
combined handler returns the literal `"(Unsupported file type)"` — which is
not the claimed sentinel `"unsupported file type"` — and the processor
variant returns the empty string, with no sentinel at all. -/
theorem claim4_counterexample :
    App.extract_text envBase "b" "report.docx" =
      .ok "(Unsupported file type)" ∧
    DocProcessor.extract_text envBase "b" "report.docx" = .ok "" ∧
    ("(Unsupported file type)" : String) ≠ "unsupported file type" := by
  decide

/-- C4 amended: for every object name with none of the supported suffixes,
extraction does not raise (once the storage read succeeds): the combined
handler returns the sentinel `"(Unsupported file type)"` and the processor
variant returns `""`. -/
theorem claim4_amended (env : Env) (bucket key : String) (obj : S3Obj)
    (hget : env.s3Get bucket key = .ok obj)
    (hpdf : pyLowerEndsWith key ".pdf" = false)
    (htxt : pyLowerEndsWith key ".txt" = false)
    (hcsvt : pyLowerEndsWith key ".csv" = false) :
    App.extract_text env bucket key = .ok "(Unsupported file type)" ∧
    DocProcessor.extract_text env bucket key = .ok "" := by
  constructor
  · simp [App.extract_text, hget, hpdf, htxt, hcsvt]
  · simp [DocProcessor.extract_text, hget, hpdf, htxt, hcsvt, pyStrip]

/-- Witness for C4's amended statement at the key `archive.zip`. -/
theorem claim4_witness :
    App.extract_text envBase "b" "archive.zip" =
      .ok "(Unsupported file type)" ∧
    DocProcessor.extract_text envBase "b" "archive.zip" = .ok "" :=
  claim4_amended envBase "b" "archive.zip" (mkObj [104, 105])
    (by decide) (by decide) (by decide) (by decide)
